import Mathlib

/-!
Verification of the cerebro-api dynamic route gateway.

This file gives a shallow embedding of the pure logic of the repository's
source files (`app/security.py`, `app/factory.py`, `app/config.py`) and
proves the specification's claims about it.

Modelling conventions:
- Python strings are Lean `String`s; the ASCII-only behaviour of
  `str.lower`, `str.title` and the regular expression `\d` is embedded
  (all tier tags, model names and column names in this system are ASCII).
- Python dicts (which preserve insertion order) are association lists
  `List (String × α)`.
- A possibly-absent HTTP header is `Option String`; Python's truthiness
  test `if not header` is `none` or `some ""`.
- `raise HTTPException(...)` is modelled with `Except`/`Option` results
  carrying an `HTTPException` record.
-/

namespace Cerebro

/-! ## Character / string helpers (ASCII semantics of the Python built-ins) -/

/-- Does the second character list occur as a prefix of the first? -/
def charsHavePrefix : List Char → List Char → Bool
  | _, [] => true
  | [], _ :: _ => false
  | c :: cs, d :: ds => c = d && charsHavePrefix cs ds

/-- Does the second character list occur as a contiguous sublist of the first?
(Python's `sub in s`.) -/
def charsContain : List Char → List Char → Bool
  | [], sub => sub.isEmpty
  | c :: cs, sub => charsHavePrefix (c :: cs) sub || charsContain cs sub

/-- Python `sub in s` on strings. -/
def strContainsStr (s sub : String) : Bool :=
  charsContain s.data sub.data

/-- Python `s.startswith(p)`. -/
def strStartsWith (s p : String) : Bool :=
  charsHavePrefix s.data p.data

/-- Python `s.lower()` (ASCII). -/
def lowerStr (s : String) : String :=
  ⟨s.data.map Char.toLower⟩

/-- Python `s.replace(a, b)` for single characters `a`, `b`. -/
def replaceChar (a b : Char) (s : String) : String :=
  ⟨s.data.map fun c => if c = a then b else c⟩

/-- Helper for `pyTitle`: the Boolean records whether the previous
character was alphabetic. -/
def titleAux : Bool → List Char → List Char
  | _, [] => []
  | prevAlpha, c :: cs =>
    let c' := if c.isAlpha then (if prevAlpha then c.toLower else c.toUpper) else c
    c' :: titleAux c.isAlpha cs

/-- Python `s.title()` (ASCII): the first letter of every maximal
letter-run is upper-cased, the rest lower-cased. -/
def pyTitle (s : String) : String :=
  ⟨titleAux false s.data⟩

/-- Drop the first `n` characters of a string (Python `s[n:]`). -/
def dropStr (s : String) (n : Nat) : String :=
  ⟨s.data.drop n⟩

/-- Value of a run of decimal digits (Python `int(...)` on a digit string). -/
def digitsToNat (ds : List Char) : Nat :=
  ds.foldl (fun acc c => 10 * acc + (c.toNat - 48)) 0

/-- The capture of `re.match(r'^tier(\d+)$', ...)`: if the (already
lower-cased) character list is `tier` followed by one or more digits —
optionally followed by a single trailing newline, which Python's `$`
matches just before — return those digits (the newline is outside the
capture group). -/
def tierDigits? : List Char → Option (List Char)
  | 't' :: 'i' :: 'e' :: 'r' :: rest =>
    let ds := if rest.getLast? = some '\n' then rest.dropLast else rest
    if ds ≠ [] ∧ ds.all Char.isDigit then some ds else none
  | _ => none

/-! ## `app/security.py` -/

/-- `security.get_tier_level`: the dict `TIER_LEVELS` membership test
followed by the `^tier(\d+)$` match on the lower-cased string; `-1` for
anything unrecognized. -/
def get_tier_level (tier : String) : Int :=
  if tier = "tier0" then 0
  else if tier = "tier1" then 1
  else if tier = "tier2" then 2
  else if tier = "tier3" then 3
  else
    match tierDigits? (lowerStr tier).data with
    | some ds => (digitsToNat ds : Int)
    | none => -1

/-- `security.can_access_tier`. -/
def can_access_tier (userTier requiredTier : String) : Bool :=
  let userLevel := get_tier_level userTier
  let requiredLevel := get_tier_level requiredTier
  if userLevel < 0 ∨ requiredLevel < 0 then false
  else decide (userLevel ≥ requiredLevel)

/-! ## Claim C1 -/

/-- C1: `can_access_tier` grants access iff both tier strings parse to a
non-negative level and the caller's level is at least the required level;
with the four concrete examples from the spec. -/
theorem can_access_tier_iff_levels :
    (∀ u r : String, can_access_tier u r = true ↔
      0 ≤ get_tier_level u ∧ 0 ≤ get_tier_level r ∧
        get_tier_level r ≤ get_tier_level u) ∧
    can_access_tier "tier2" "tier0" = true ∧
    can_access_tier "tier0" "tier2" = false ∧
    can_access_tier "tier1" "tier1" = true ∧
    can_access_tier "bogus" "tier0" = false := by
  refine ⟨?_, by decide, by decide, by decide, by decide⟩
  intro u r
  by_cases h : get_tier_level u < 0 ∨ get_tier_level r < 0
  · simp only [can_access_tier, if_pos h, Bool.false_eq_true, false_iff]
    omega
  · simp only [can_access_tier, if_neg h, decide_eq_true_eq]
    omega

/-! ## Claim C5 -/

/-- The `re.match(r'^tier\d+$', ...)` test on the lower-cased tag, as
used by `security.get_tier_level` and by `factory.py`'s tag scans
(`$` also matches before one string-final newline, so `"tier2\n"`
counts as a tier tag). -/
def is_tier_tag (t : String) : Bool :=
  (tierDigits? (lowerStr t).data).isSome

/-- C5 counterexample: `"tier4"` lies outside the recognized set
{tier0, tier1, tier2, tier3}, yet it parses to level 4 (not the invalid
level) and does satisfy an access check as the caller's tier; the same
holds for `"tier4\n"`, which `^tier(\d+)$` matches before the trailing
newline. -/
theorem tier4_outside_set_but_grants :
    ("tier4" ∉ (["tier0", "tier1", "tier2", "tier3"] : List String)) ∧
    get_tier_level "tier4" = 4 ∧
    can_access_tier "tier4" "tier0" = true ∧
    get_tier_level "tier4\n" = 4 ∧
    can_access_tier "tier4\n" "tier0" = true := by
  refine ⟨by decide, by decide, by decide, by decide, by decide⟩

/-- C5 amended: every tier string whose lower-casing does not match
`tier` + digits parses to the invalid level `-1` and can never satisfy an
access check, on either side. -/
theorem unmatched_tier_never_grants (s : String) (h : is_tier_tag s = false) :
    get_tier_level s = -1 ∧
    ∀ t : String, can_access_tier s t = false ∧ can_access_tier t s = false := by
  have hlevel : get_tier_level s = -1 := by
    unfold get_tier_level
    split_ifs with h0 h1 h2 h3
    · subst h0; exact absurd h (by decide)
    · subst h1; exact absurd h (by decide)
    · subst h2; exact absurd h (by decide)
    · subst h3; exact absurd h (by decide)
    · unfold is_tier_tag at h
      cases hd : tierDigits? (lowerStr s).data with
      | none => rfl
      | some ds => rw [hd] at h; exact absurd h (by simp)
  refine ⟨hlevel, fun t => ⟨?_, ?_⟩⟩
  · simp only [can_access_tier, hlevel]
    rw [if_pos]
    exact Or.inl (by omega)
  · simp only [can_access_tier, hlevel]
    rw [if_pos]
    exact Or.inr (by omega)

/-- C5 witness: the amended theorem applied at the malformed tier string
`"bogus"` and the concrete other side `"tier2"`. -/
theorem unmatched_tier_never_grants_witness :
    is_tier_tag "bogus" = false ∧
    get_tier_level "bogus" = -1 ∧
    can_access_tier "bogus" "tier2" = false ∧
    can_access_tier "tier2" "bogus" = false :=
  ⟨by decide,
   (unmatched_tier_never_grants "bogus" (by decide)).1,
   ((unmatched_tier_never_grants "bogus" (by decide)).2 "tier2").1,
   ((unmatched_tier_never_grants "bogus" (by decide)).2 "tier2").2⟩

/-! ## HTTP errors and caller identity (`app/security.py`, `app/config.py`) -/

/-- `fastapi.HTTPException` as raised by this code: a status code and a
detail string. -/
structure HTTPException where
  status_code : Nat
  detail : String
deriving DecidableEq, Repr

/-- One value of the configured API-key mapping. `config.py` types the
values as plain strings, but `security.py` consumes them as records
carrying user label, tier and organization (the spec's "richer variant",
which it recommends as the authoritative shape); each field may be absent
since the consuming code only uses `.get` with defaults. -/
structure KeyRecord where
  user : Option String
  tier : Option String
  org : Option String
deriving DecidableEq, Repr

/-- The caller-identity dict returned by `get_api_key`: a copy of the
key's record with the raw key attached under `"api_key"`. -/
structure UserInfo where
  user : Option String
  tier : Option String
  org : Option String
  api_key : Option String
deriving DecidableEq, Repr

/-- The Authentication-Required error of `security.get_api_key`. -/
def missingAuthError : HTTPException :=
  ⟨403, "Missing authentication header: X-API-Key"⟩

/-- The Invalid-Credentials error of `security.get_api_key`. -/
def invalidKeyError : HTTPException :=
  ⟨403, "Invalid API Key"⟩

/-- `security.get_api_key`, parameterized by the configured
`settings.API_KEYS` mapping. The header is `none` when absent;
Python's `if not api_key_header` is true for `none` and for `some ""`. -/
def get_api_key (apiKeys : List (String × KeyRecord)) (apiKeyHeader : Option String) :
    Except HTTPException UserInfo :=
  match apiKeyHeader with
  | none => .error missingAuthError
  | some key =>
    if key = "" then .error missingAuthError
    else
      match apiKeys.lookup key with
      | some r => .ok ⟨r.user, r.tier, r.org, some key⟩
      | none => .error invalidKeyError

/-! ## Claim C3 -/

/-- C3 counterexample: with the empty string configured as a key of the
mapping and the header present carrying that key, the claim says
`get_api_key` returns the caller's record, but the code's falsy test
treats the empty header as missing and raises Authentication-Required. -/
theorem empty_key_in_mapping_still_rejected :
    ("" ∈ ([("", KeyRecord.mk (some "u") (some "tier1") none)].map Prod.fst : List String)) ∧
    get_api_key [("", KeyRecord.mk (some "u") (some "tier1") none)] (some "") =
      .error missingAuthError := by
  exact ⟨by decide, rfl⟩

/-- C3 amended: `get_api_key` raises 403 exactly when the header is
missing or empty (Authentication-Required) or present, non-empty and not
a key of the mapping (Invalid-Credentials); for every non-empty key of
the mapping it returns the mapped record with the raw key attached. -/
theorem get_api_key_spec (apiKeys : List (String × KeyRecord)) :
    get_api_key apiKeys none = .error missingAuthError ∧
    get_api_key apiKeys (some "") = .error missingAuthError ∧
    (∀ key, key ≠ "" → apiKeys.lookup key = none →
      get_api_key apiKeys (some key) = .error invalidKeyError) ∧
    (∀ key r, key ≠ "" → apiKeys.lookup key = some r →
      get_api_key apiKeys (some key) = .ok ⟨r.user, r.tier, r.org, some key⟩) := by
  refine ⟨rfl, by simp [get_api_key], ?_, ?_⟩
  · intro key hne hlk
    simp [get_api_key, hne, hlk]
  · intro key r hne hlk
    simp [get_api_key, hne, hlk]

/-- C3 witness: the amended theorem applied at a concrete one-entry
mapping, for a hit and for a miss. -/
theorem get_api_key_spec_witness :
    get_api_key [("k1", KeyRecord.mk (some "alice") (some "tier2") none)] (some "k1") =
      .ok ⟨some "alice", some "tier2", none, some "k1"⟩ ∧
    get_api_key [("k1", KeyRecord.mk (some "alice") (some "tier2") none)] (some "nope") =
      .error invalidKeyError :=
  ⟨(get_api_key_spec [("k1", KeyRecord.mk (some "alice") (some "tier2") none)]).2.2.2
      "k1" (KeyRecord.mk (some "alice") (some "tier2") none) (by decide) (by decide),
   (get_api_key_spec [("k1", KeyRecord.mk (some "alice") (some "tier2") none)]).2.2.1
      "nope" (by decide) (by decide)⟩

/-! ## Claim C10 -/

/-- The Access-Denied detail string built by `security.check_tier_access`. -/
def access_denied_detail (requiredTier userName userTier : String) : String :=
  "Access denied. This endpoint requires " ++ requiredTier ++
    " access. User '" ++ userName ++ "' has " ++ userTier ++ " access."

/-- `security.check_tier_access`: `none` when access is granted, the
raised `HTTPException` otherwise. The dict lookups `user_info.get("tier",
"tier0")` and `user_info.get("user", "anonymous")` become `Option.getD`.
The `endpointPath` argument is accepted but, as in the source, unused. -/
def check_tier_access (userInfo : UserInfo) (requiredTier : String)
    (endpointPath : String) : Option HTTPException :=
  let userTier := userInfo.tier.getD "tier0"
  let userName := userInfo.user.getD "anonymous"
  if can_access_tier userTier requiredTier then none
  else some ⟨403, access_denied_detail requiredTier userName userTier⟩

/-- C10: a record lacking the tier field is checked exactly as if its tier
were `"tier0"`; the check passes iff `can_access_tier` grants; and a
denied record lacking the user field is reported in the denial message as
user `"anonymous"`. -/
theorem check_tier_access_spec :
    (∀ (req path : String) (u o k : Option String),
      check_tier_access ⟨u, none, o, k⟩ req path =
        check_tier_access ⟨u, some "tier0", o, k⟩ req path) ∧
    (∀ (info : UserInfo) (req path : String),
      check_tier_access info req path = none ↔
        can_access_tier (info.tier.getD "tier0") req = true) ∧
    (∀ (info : UserInfo) (req path : String),
      info.user = none →
      can_access_tier (info.tier.getD "tier0") req = false →
      check_tier_access info req path =
        some ⟨403, access_denied_detail req "anonymous" (info.tier.getD "tier0")⟩) := by
  refine ⟨fun req path u o k => rfl, ?_, ?_⟩
  · intro info req path
    simp only [check_tier_access]
    cases h : can_access_tier (info.tier.getD "tier0") req <;> simp [h]
  · intro info req path huser hdenied
    simp [check_tier_access, huser, hdenied]

/-- C10 witness: the spec theorem applied at a concrete denied anonymous
record and a concrete granted record. -/
theorem check_tier_access_spec_witness :
    check_tier_access ⟨none, none, none, none⟩ "tier2" "/p" =
      some ⟨403, access_denied_detail "tier2" "anonymous" "tier0"⟩ ∧
    (check_tier_access ⟨some "alice", some "tier2", none, none⟩ "tier1" "/p" = none ↔
      can_access_tier "tier2" "tier1" = true) :=
  ⟨check_tier_access_spec.2.2 ⟨none, none, none, none⟩ "tier2" "/p" rfl (by decide),
   check_tier_access_spec.2.1 ⟨some "alice", some "tier2", none, none⟩ "tier1" "/p"⟩

/-! ## `app/factory.py`: tier derivation and tag grouping -/

/-- `factory.DynamicRouter._get_required_tier`, parameterized by the value
of the `settings.DEFAULT_ENDPOINT_TIER` read (the configuration schema in
`config.py` never declares that field, so the fallback value is left as a
parameter of the embedding). -/
def get_required_tier (defaultEndpointTier : String) (dbtTags : List String) : String :=
  match dbtTags.find? is_tier_tag with
  | some tag => lowerStr tag
  | none => defaultEndpointTier

/-- The required tier of a route: the manual override's `tier` field when
present, else the derivation from the dbt tags
(`factory.py` line `required_tier = override.get("tier", self._get_required_tier(dbt_tags))`). -/
def required_tier (defaultEndpointTier : String) (overrideTier : Option String)
    (dbtTags : List String) : String :=
  overrideTier.getD (get_required_tier defaultEndpointTier dbtTags)

/-! ## Claim C4 -/

/-- C4: with no manual tier override, a model none of whose tags matches
`tier` + digits (case-insensitive) gets the process-wide default endpoint
tier; and when such a tag exists, the first one found is returned
lower-cased. -/
theorem required_tier_default_spec :
    (∀ (d : String) (tags : List String),
      (∀ t ∈ tags, is_tier_tag t = false) →
      required_tier d none tags = d) ∧
    (∀ (d : String) (pre : List String) (t : String) (post : List String),
      (∀ x ∈ pre, is_tier_tag x = false) →
      is_tier_tag t = true →
      required_tier d none (pre ++ t :: post) = lowerStr t) := by
  constructor
  · intro d tags hall
    have hfind : tags.find? is_tier_tag = none :=
      List.find?_eq_none.mpr (fun x hx => by simp [hall x hx])
    simp [required_tier, get_required_tier, hfind]
  · intro d pre t post hpre ht
    have hfind : (pre ++ t :: post).find? is_tier_tag = some t := by
      induction pre with
      | nil => simp [List.find?, ht]
      | cons x xs ih =>
        have hx : is_tier_tag x = false := hpre x (by simp)
        simp only [List.cons_append, List.find?, hx]
        exact ih (fun y hy => hpre y (by simp [hy]))
    simp [required_tier, get_required_tier, hfind]

/-- C4 witness: the spec theorem applied at concrete tag lists
`["production", "consensus"]` (no tier tag),
`["production", "TIER2", "financial"]` (first tier tag `"TIER2"`), and
`["tier2\n"]` (the regex matches before the trailing newline and the
whole lowered tag, newline included, is returned). -/
theorem required_tier_default_spec_witness :
    required_tier "tier0" none ["production", "consensus"] = "tier0" ∧
    required_tier "tier0" none ["production", "TIER2", "financial"] = "tier2" ∧
    required_tier "tier0" none ["tier2\n"] = "tier2\n" :=
  ⟨required_tier_default_spec.1 "tier0" ["production", "consensus"] (by decide),
   required_tier_default_spec.2 "tier0" ["production"] "TIER2" ["financial"]
     (by decide) (by decide),
   required_tier_default_spec.2 "tier0" [] "tier2\n" []
     (by decide) (by decide)⟩

/-! ## Claims C7 and C2 -/

/-- The fixed system-tag set excluded from Swagger grouping
(`factory.DynamicRouter._get_hierarchical_tags`). -/
def system_tags : List String :=
  ["production", "daily", "hourly", "weekly", "monthly",
   "view", "table", "incremental", "staging", "intermediate"]

/-- The tag-filtering loop of `_get_hierarchical_tags`: drop tags whose
lower-casing is a system tag or matches `tier` + digits. -/
def hierarchy_tags (dbtTags : List String) : List String :=
  dbtTags.filter fun t => !(system_tags.contains (lowerStr t)) && !(is_tier_tag t)

/-- `factory.DynamicRouter._get_hierarchical_tags`. -/
def get_hierarchical_tags (dbtTags : List String) : List String :=
  match hierarchy_tags dbtTags with
  | [] => ["General"]
  | t :: _ => [pyTitle (replaceChar '_' ' ' t)]

/-- C7: the derived tag group is `["General"]` when removing the system
tags and tier tags leaves nothing, and otherwise the single-element list
holding the first remaining tag title-cased with underscores turned to
spaces; with the spec's two concrete examples. -/
theorem hierarchical_tags_spec :
    (∀ tags : List String, hierarchy_tags tags = [] →
      get_hierarchical_tags tags = ["General"]) ∧
    (∀ (tags : List String) (t : String) (rest : List String),
      hierarchy_tags tags = t :: rest →
      get_hierarchical_tags tags = [pyTitle (replaceChar '_' ' ' t)]) ∧
    get_hierarchical_tags ["production", "execution", "transactions"] = ["Execution"] ∧
    get_hierarchical_tags ["production"] = ["General"] := by
  refine ⟨?_, ?_, by decide, by decide⟩
  · intro tags h; simp [get_hierarchical_tags, h]
  · intro tags t rest h; simp [get_hierarchical_tags, h]

/-- C7 witness: the spec theorem applied at the concrete tag lists
`["tier2", "production", "data_quality"]`, `["Production", "tier1"]`,
and `["production", "tier1\n"]` (the regex filter also drops a tier tag
with a trailing newline). -/
theorem hierarchical_tags_spec_witness :
    get_hierarchical_tags ["tier2", "production", "data_quality"] = ["Data Quality"] ∧
    get_hierarchical_tags ["Production", "tier1"] = ["General"] ∧
    get_hierarchical_tags ["production", "tier1\n"] = ["General"] :=
  ⟨hierarchical_tags_spec.2.1 ["tier2", "production", "data_quality"]
      "data_quality" [] (by decide),
   hierarchical_tags_spec.1 ["Production", "tier1"] (by decide),
   hierarchical_tags_spec.1 ["production", "tier1\n"] (by decide)⟩

/-- The auto-discovery loop of `factory.DynamicRouter._build_routes`:
models whose name starts with `api_` and whose tags contain
`production`. `allModels` is `manifest.get_all_models()` (dict keys,
hence duplicate-free in the source) and `getTags` is
`manifest.get_tags`. -/
def models_to_expose (allModels : List String) (getTags : String → List String) :
    List String :=
  allModels.filter fun m => strStartsWith m "api_" && (getTags m).contains "production"

/-- The sequence of `_create_auto_route` calls made by
`factory.DynamicRouter._build_routes`: first the auto-discovered models
(the source iterates a Python set here; this embedding fixes manifest
order, on which membership and multiplicity do not depend), then every
manual endpoint's `model` (in file order) that is not already
auto-discovered. `manualModels` is the list of `model` fields of the
manual endpoints. -/
def route_calls (allModels : List String) (getTags : String → List String)
    (manualModels : List String) : List String :=
  models_to_expose allModels getTags ++
    manualModels.filter fun m => !((models_to_expose allModels getTags).contains m)

/-- The effect of running a sequence of `_create_auto_route` calls: for a
model indexed in the manifest the call registers exactly one route; for a
model absent from the manifest, `manifest.get_model` returns `None` and
the call raises `AttributeError` at `dbt_node.get("description", "")`
before reaching `add_api_route`, which propagates out of the
`DynamicRouter` constructor, so no route table is produced at all. -/
def register_routes (indexedModels : List String) : List String → Except String (List String)
  | [] => .ok []
  | m :: ms =>
    if indexedModels.contains m then
      match register_routes indexedModels ms with
      | .ok routes => .ok (m :: routes)
      | .error e => .error e
    else .error "AttributeError: 'NoneType' object has no attribute 'get'"

/-- `factory.DynamicRouter._build_routes`: the registered route table (as
the list of route-owning model names, one per `add_api_route` call), or
the raised error. `allModels` is `manifest.get_all_models()`, i.e. the
manifest index keys (hence duplicate-free in the source), and they are
also exactly the models `manifest.get_model` resolves. -/
def build_routes (allModels : List String) (getTags : String → List String)
    (manualModels : List String) : Except String (List String) :=
  register_routes allModels (route_calls allModels getTags manualModels)

/-- C2 counterexample: for a model that is present in the manifest but
fails the auto-selection criteria (here `"m"`, lacking the `api_`
prefix), a manual override list naming it twice registers two routes for
it, so "no model gets more than one registered route" fails as stated. -/
theorem duplicate_manual_override_two_routes :
    ("m" ∉ models_to_expose ["m"] fun _ => ["production"]) ∧
    build_routes ["m"] (fun _ => ["production"]) ["m", "m"] = .ok ["m", "m"] ∧
    (["m", "m"] : List String).count "m" = 2 := by
  exact ⟨by decide, rfl, rfl⟩

/-- C2 amended: when every manual model is indexed in the manifest, route
building succeeds and registers a route for a model iff it is an
auto-selected manifest model (name starts with `api_` and tags contain
`production`) or named by a manual override (a manual model absent from
the manifest instead makes route building raise before producing the
table); and provided additionally the manual list names each model at
most once, no model gets more than one registered route. -/
theorem build_routes_spec (allModels : List String) (getTags : String → List String)
    (manualModels : List String)
    (hsub : ∀ m ∈ manualModels, m ∈ allModels)
    (hall : allModels.Nodup) (hman : manualModels.Nodup) :
    build_routes allModels getTags manualModels =
      .ok (route_calls allModels getTags manualModels) ∧
    (∀ (m : String) (routes : List String),
      build_routes allModels getTags manualModels = .ok routes →
      ((m ∈ routes ↔
        ((m ∈ allModels ∧ strStartsWith m "api_" = true ∧ "production" ∈ getTags m) ∨
          m ∈ manualModels)) ∧
        routes.count m ≤ 1)) := by
  have hexp : ∀ m : String, m ∈ models_to_expose allModels getTags ↔
      (m ∈ allModels ∧ strStartsWith m "api_" = true ∧ "production" ∈ getTags m) := by
    intro m
    simp [models_to_expose, List.mem_filter]
  have hok : ∀ ms : List String, (∀ m ∈ ms, m ∈ allModels) →
      register_routes allModels ms = .ok ms := by
    intro ms
    induction ms with
    | nil => intro _; rfl
    | cons m ms ih =>
      intro h
      have hmem : m ∈ allModels := h m (by simp)
      simp [register_routes, hmem, ih fun x hx => h x (by simp [hx])]
  have hcalls : ∀ m ∈ route_calls allModels getTags manualModels, m ∈ allModels := by
    intro m hm
    simp only [route_calls] at hm
    rcases List.mem_append.mp hm with h1 | h2
    · exact ((hexp m).mp h1).1
    · exact hsub m (List.mem_filter.mp h2).1
  have hmain : build_routes allModels getTags manualModels =
      .ok (route_calls allModels getTags manualModels) :=
    hok _ hcalls
  refine ⟨hmain, ?_⟩
  intro m routes hroutes
  rw [hmain] at hroutes
  injection hroutes with hr
  subst hr
  constructor
  · simp only [route_calls]
    constructor
    · intro h
      rcases List.mem_append.mp h with h1 | h2
      · exact Or.inl ((hexp m).mp h1)
      · exact Or.inr (List.mem_filter.mp h2).1
    · rintro (h1 | h2)
      · exact List.mem_append.mpr (Or.inl ((hexp m).mpr h1))
      · by_cases hin : m ∈ models_to_expose allModels getTags
        · exact List.mem_append.mpr (Or.inl hin)
        · refine List.mem_append.mpr (Or.inr (List.mem_filter.mpr ⟨h2, ?_⟩))
          simp [hin]
  · simp only [route_calls]
    apply List.nodup_iff_count_le_one.mp
    apply List.Nodup.append (hall.filter _) (hman.filter _)
    intro x hx hx'
    have hcon := (List.mem_filter.mp hx').2
    simp only [Bool.not_eq_true'] at hcon
    simp at hcon
    exact hcon hx

/-- C2 witness: the amended theorem applied at a concrete manifest
(one auto-selected model, one rejected model) and a concrete manual list
naming the rejected, manifest-indexed model once. -/
theorem build_routes_spec_witness :
    build_routes ["api_a", "api_b"]
        (fun m => if m = "api_a" then ["production"] else ["staging"]) ["api_b"] =
      .ok (route_calls ["api_a", "api_b"]
        (fun m => if m = "api_a" then ["production"] else ["staging"]) ["api_b"]) ∧
    (("api_b" ∈ (["api_a", "api_b"] : List String)) ↔
      (("api_b" ∈ (["api_a", "api_b"] : List String) ∧
          strStartsWith "api_b" "api_" = true ∧
          "production" ∈ (if "api_b" = "api_a" then ["production"] else ["staging"])) ∨
        "api_b" ∈ (["api_b"] : List String))) ∧
    (["api_a", "api_b"] : List String).count "api_b" ≤ 1 :=
  ⟨(build_routes_spec ["api_a", "api_b"]
      (fun m => if m = "api_a" then ["production"] else ["staging"]) ["api_b"]
      (by decide) (by decide) (by decide)).1,
   ((build_routes_spec ["api_a", "api_b"]
      (fun m => if m = "api_a" then ["production"] else ["staging"]) ["api_b"]
      (by decide) (by decide) (by decide)).2 "api_b" ["api_a", "api_b"] rfl).1,
   ((build_routes_spec ["api_a", "api_b"]
      (fun m => if m = "api_a" then ["production"] else ["staging"]) ["api_b"]
      (by decide) (by decide) (by decide)).2 "api_b" ["api_a", "api_b"] rfl).2⟩

/-! ## `app/factory.py`: auto-detected filter parameters and ordering -/

/-- One entry of the route's `allowed_params` list. -/
structure FilterParam where
  name : String
  column : String
  operator : String
  type : String
deriving DecidableEq, Repr

/-- The date/time-column predicate of `_create_auto_route`: the declared
type contains `"Date"` or `"Time"`, or the column name is one of the
given fixed names. A column is a `(name, declared type)` pair. -/
def is_date_col (fixedNames : List String) (col : String × String) : Bool :=
  strContainsStr col.2 "Date" || strContainsStr col.2 "Time" ||
    fixedNames.contains col.1

/-- The `date_cols` list comprehension used for filter synthesis
(fixed names `date`, `timestamp`, `block_timestamp`), in column-mapping
order. -/
def date_cols_params (columns : List (String × String)) : List String :=
  (columns.filter (is_date_col ["date", "timestamp", "block_timestamp"])).map Prod.fst

/-- The `date_cols` list comprehension used for default ordering
(fixed names `date`, `timestamp` only). -/
def date_cols_order (columns : List (String × String)) : List String :=
  (columns.filter (is_date_col ["date", "timestamp"])).map Prod.fst

/-- The parameter auto-detection of `_create_auto_route` (run when the
manual override supplies no `parameters`): date filters on the first
date/time column, an `ILIKE` address filter, and `=` filters for the
fixed categorical column names. -/
def auto_params (columns : List (String × String)) : List FilterParam :=
  let dateParams : List FilterParam :=
    match date_cols_params columns with
    | [] => []
    | c :: _ => [⟨"start_date", c, ">=", "date"⟩, ⟨"end_date", c, "<=", "date"⟩]
  let addressParams : List FilterParam :=
    if (columns.map Prod.fst).contains "address" then
      [⟨"address", "address", "ILIKE", "string"⟩]
    else []
  let idParams : List FilterParam :=
    (["project", "sector", "label", "status"].filter
        fun col => (columns.map Prod.fst).contains col).map
      fun col => ⟨col, col, "=", "string"⟩
  dateParams ++ addressParams ++ idParams

/-- The default-ordering derivation of `_create_auto_route` (run when the
manual override supplies no `order_by`): first date/time column
descending, or no clause. -/
def default_order_by (columns : List (String × String)) : Option String :=
  match date_cols_order columns with
  | [] => none
  | c :: _ => some (c ++ " DESC")

/-! ## Claim C6 -/

/-- A concrete column mapping for the spec's example: `block_timestamp`
declared with a type containing `"DateTime"`. -/
def exampleColumns : List (String × String) :=
  [("block_timestamp", "DateTime"), ("validator_index", "UInt64"),
   ("balance", "Float64")]

/-- C6: with no manual override, the first date/time-bindable column (in
mapping order) becomes the main date column and the synthesized
parameters of type `date` are exactly `start_date` (`>=`) and `end_date`
(`<=`) bound to it (none when no column matches); the default ordering
orders the first column matching the same rule without `block_timestamp`
descending, or is absent when none matches; and both evaluate as the
spec says on a model with a `DateTime`-typed `block_timestamp` column. -/
theorem auto_date_filters_spec :
    (∀ (cols : List (String × String)) (c : String) (rest : List String),
      date_cols_params cols = c :: rest →
      (auto_params cols).filter (fun p => p.type == "date") =
        [⟨"start_date", c, ">=", "date"⟩, ⟨"end_date", c, "<=", "date"⟩]) ∧
    (∀ cols : List (String × String), date_cols_params cols = [] →
      (auto_params cols).filter (fun p => p.type == "date") = []) ∧
    (∀ (cols : List (String × String)) (c : String) (rest : List String),
      date_cols_order cols = c :: rest →
      default_order_by cols = some (c ++ " DESC")) ∧
    (∀ cols : List (String × String), date_cols_order cols = [] →
      default_order_by cols = none) ∧
    auto_params exampleColumns =
      [⟨"start_date", "block_timestamp", ">=", "date"⟩,
       ⟨"end_date", "block_timestamp", "<=", "date"⟩] ∧
    default_order_by exampleColumns = some "block_timestamp DESC" := by
  have hfilter : ∀ cols : List (String × String),
      ((auto_params cols).filter fun p => p.type == "date") =
      (match date_cols_params cols with
        | [] => ([] : List FilterParam)
        | c :: _ => [⟨"start_date", c, ">=", "date"⟩, ⟨"end_date", c, "<=", "date"⟩]) := by
    intro cols
    simp only [auto_params, List.filter_append]
    have h1 : ∀ l : List FilterParam,
        l = (match date_cols_params cols with
          | [] => ([] : List FilterParam)
          | c :: _ => [⟨"start_date", c, ">=", "date"⟩, ⟨"end_date", c, "<=", "date"⟩]) →
        l.filter (fun p => p.type == "date") = l := by
      intro l hl
      cases hd : date_cols_params cols <;> rw [hd] at hl <;> subst hl <;> rfl
    rw [h1 _ rfl]
    have h2 : ((if (cols.map Prod.fst).contains "address" then
        ([⟨"address", "address", "ILIKE", "string"⟩] : List FilterParam)
      else []).filter fun p => p.type == "date") = [] := by
      cases hc : (cols.map Prod.fst).contains "address" <;> rfl
    have h3 : (((["project", "sector", "label", "status"].filter
          fun col => (cols.map Prod.fst).contains col).map
        (fun col => (⟨col, col, "=", "string"⟩ : FilterParam))).filter
          fun p => p.type == "date") = [] := by
      rw [List.filter_map]
      have : ((fun p : FilterParam => p.type == "date") ∘
          fun col => (⟨col, col, "=", "string"⟩ : FilterParam)) = fun _ => false := by
        funext col; rfl
      rw [this, List.filter_false, List.map_nil]
    rw [h2, h3, List.append_nil, List.append_nil]
  refine ⟨?_, ?_, ?_, ?_, by decide, by decide⟩
  · intro cols c rest h
    rw [hfilter cols, h]
  · intro cols h
    rw [hfilter cols, h]
  · intro cols c rest h
    simp [default_order_by, h]
  · intro cols h
    simp [default_order_by, h]

/-- C6 witness: the spec theorem applied at `exampleColumns` (whose first
bindable date column is `block_timestamp`) and at a column mapping with
no date/time column. -/
theorem auto_date_filters_spec_witness :
    ((auto_params exampleColumns).filter fun p => p.type == "date") =
      [⟨"start_date", "block_timestamp", ">=", "date"⟩,
       ⟨"end_date", "block_timestamp", "<=", "date"⟩] ∧
    default_order_by exampleColumns = some ("block_timestamp" ++ " DESC") ∧
    default_order_by [("label", "String")] = none :=
  ⟨auto_date_filters_spec.1 exampleColumns "block_timestamp" [] (by decide),
   auto_date_filters_spec.2.2.1 exampleColumns "block_timestamp" [] (by decide),
   auto_date_filters_spec.2.2.2.1 [("label", "String")] (by decide)⟩

/-! ## Claim C8 -/

/-- The LIKE-value binding of the dynamic request handler:
`f"%{val}%" if "%" not in val else val`. -/
def like_bind_value (val : String) : String :=
  if strContainsStr val "%" then val else "%" ++ val ++ "%"

/-- C8: for operators containing `LIKE`, the bound value is wrapped in
`%...%` exactly when the caller's value contains no `%` character, and
passed through unmodified otherwise; with the two concrete examples. -/
theorem like_binding_spec :
    (∀ val : String, strContainsStr val "%" = false →
      like_bind_value val = "%" ++ val ++ "%") ∧
    (∀ val : String, strContainsStr val "%" = true →
      like_bind_value val = val) ∧
    like_bind_value "foo" = "%foo%" ∧
    like_bind_value "%foo%" = "%foo%" := by
  refine ⟨?_, ?_, by decide, by decide⟩
  · intro val h; simp [like_bind_value, h]
  · intro val h; simp [like_bind_value, h]

/-- C8 witness: the spec theorem applied at the concrete values `"abc"`
(no wildcard) and `"a%b"` (caller-supplied wildcard). -/
theorem like_binding_spec_witness :
    like_bind_value "abc" = "%" ++ "abc" ++ "%" ∧
    like_bind_value "a%b" = "a%b" :=
  ⟨like_binding_spec.1 "abc" (by decide), like_binding_spec.2.1 "a%b" (by decide)⟩

/-! ## Claim C9 -/

/-- The `clean_name` computation of `_create_auto_route`: strip a leading
`api_` prefix when present. -/
def clean_model_name (modelName : String) : String :=
  if strStartsWith modelName "api_" then dropStr modelName 4 else modelName

/-- The default URL path `f"/{clean_name.replace('_', '/')}"`. -/
def default_url_path (modelName : String) : String :=
  "/" ++ replaceChar '_' '/' (clean_model_name modelName)

/-- The default summary `clean_name.replace("_", " ").title()`. -/
def default_summary (modelName : String) : String :=
  pyTitle (replaceChar '_' ' ' (clean_model_name modelName))

/-- C9: the default path strips a leading `api_` prefix when present and
turns the remaining underscores into `/` after a leading slash; the
default summary turns underscores into spaces and capitalizes each word;
with the spec's concrete model name. -/
theorem path_summary_spec :
    (∀ s : String, clean_model_name ("api_" ++ s) = s) ∧
    (∀ s : String, strStartsWith s "api_" = false → clean_model_name s = s) ∧
    (∀ s : String,
      default_url_path s = "/" ++ replaceChar '_' '/' (clean_model_name s)) ∧
    (∀ s : String,
      default_summary s = pyTitle (replaceChar '_' ' ' (clean_model_name s))) ∧
    default_url_path "api_consensus_validators_active_daily" =
      "/consensus/validators/active/daily" ∧
    default_summary "api_consensus_validators_active_daily" =
      "Consensus Validators Active Daily" := by
  refine ⟨?_, ?_, fun s => rfl, fun s => rfl, by decide, by decide⟩
  · intro s
    have hd : ("api_" ++ s).data = 'a' :: 'p' :: 'i' :: '_' :: s.data := by
      rw [String.data_append]; rfl
    have hpre : strStartsWith ("api_" ++ s) "api_" = true := by
      simp [strStartsWith, hd, charsHavePrefix]
    simp only [clean_model_name, hpre, if_true, dropStr, hd, List.drop]
    show (⟨s.data⟩ : String) = s
    rfl
  · intro s h
    simp [clean_model_name, h]

/-- C9 witness: the spec theorem applied at a model name without the
`api_` prefix and at a concrete stripped name. -/
theorem path_summary_spec_witness :
    clean_model_name "manual_table" = "manual_table" ∧
    clean_model_name ("api_" ++ "x_y") = "x_y" :=
  ⟨path_summary_spec.2.1 "manual_table" (by decide),
   path_summary_spec.1 "x_y"⟩

end Cerebro
